/-
Verification of the ConcreteCandyTracker acquisition / conversion / publication
core.

The definitions below are a shallow embedding of the data path of
src/camera.py (class Camera) and of the publisher loop of
src/opcua_write_to_server.py.  Machine floats are modelled as exact real
numbers; the camera device, wall-clock time, the filesystem and the network
are modelled by explicit inputs (lists of per-iteration outcomes, a map from
paths to file contents).
-/
import Mathlib

/-! ### Color transform: Camera.rgb2xyz / Camera.xyz2lab (src/camera.py) -/

/-- A triple of reals, standing for the 3-element numpy arrays of camera.py. -/
structure Vec3 where
  x : ℝ
  y : ℝ
  z : ℝ

/-- Matrix constant `_B11` of camera.py. -/
noncomputable def _B11 : ℝ := 0.4124

/-- Matrix constant `_B12` of camera.py. -/
noncomputable def _B12 : ℝ := 0.3576

/-- Matrix constant `_B13` of camera.py. -/
noncomputable def _B13 : ℝ := 0.1805

/-- Matrix constant `_B21` of camera.py. -/
noncomputable def _B21 : ℝ := 0.2126

/-- Matrix constant `_B22` of camera.py. -/
noncomputable def _B22 : ℝ := 0.7152

/-- Matrix constant `_B23` of camera.py. -/
noncomputable def _B23 : ℝ := 0.0722

/-- Matrix constant `_B31` of camera.py. -/
noncomputable def _B31 : ℝ := 0.0193

/-- Matrix constant `_B32` of camera.py. -/
noncomputable def _B32 : ℝ := 0.1192

/-- Matrix constant `_B33` of camera.py. -/
noncomputable def _B33 : ℝ := 0.9505

/-- Constant `_DELTA = 16.0/116.0` of camera.py. -/
noncomputable def _DELTA : ℝ := 16 / 116

/-- One branch of the piecewise response used by `Camera.xyz2lab`
(camera.py lines 707-720).  The source repeats this `if` once per channel;
the three copies are identical (one writes the exponent as `3`, the other two
as `3.0`, the same value), so they are factored into one function of the
channel ratio `t`. -/
noncomputable def labF (t : ℝ) : ℝ :=
  if t > _DELTA ^ 3 then t ^ ((1 : ℝ) / 3) else t / (3 * _DELTA ^ 2) + _DELTA

/-- `Camera.rgb2xyz` (camera.py lines 671-692): normalize each channel by 255,
then apply the fixed 3x3 matrix. -/
noncomputable def rgb2xyz (rgb : Vec3) : Vec3 :=
  let r := rgb.x / 255
  let g := rgb.y / 255
  let b := rgb.z / 255
  ⟨_B11 * r + _B12 * g + _B13 * b,
   _B21 * r + _B22 * g + _B23 * b,
   _B31 * r + _B32 * g + _B33 * b⟩

/-- `Camera.xyz2lab` (camera.py lines 695-727): per-channel piecewise response
relative to the white point, then the L*, a*, b* combinations exactly as in
the source (`500.0*fx - 500.0*fy`, etc.). -/
noncomputable def xyz2lab (whitepoint xyz : Vec3) : Vec3 :=
  let fx := labF (xyz.x / whitepoint.x)
  let fy := labF (xyz.y / whitepoint.y)
  let fz := labF (xyz.z / whitepoint.z)
  ⟨116 * fy - 16, 500 * fx - 500 * fy, 200 * fy - 200 * fz⟩

/-- `Camera.rgb2lab` (camera.py lines 730-742): composition of the two stages. -/
noncomputable def rgb2lab (whitepoint rgb : Vec3) : Vec3 :=
  xyz2lab whitepoint (rgb2xyz rgb)

/-- The default white point of `Camera.set_whitepoint` (camera.py line 745),
the D65 values named in the spec. -/
noncomputable def D65 : Vec3 := ⟨0.94811, 1.0, 1.07304⟩

/-- Claim C1 (refuted: code bug).  At the branch boundary `t = δ³` the two
branches of the response used by `Camera.xyz2lab` do not agree: the cube-root
branch gives `δ` while the linear branch — the one `xyz2lab` actually takes at
the boundary, since the strict `>` fails there — gives `δ³/(3δ²) + δ = 4δ/3`.
The standard CIELAB response is continuous because its breakpoint uses
`δ = 6/29` with additive offset `4/29`; camera.py uses `16/116 = 4/29` for
both, so the branches jump at the breakpoint. -/
theorem xyz2lab_branches_disagree_at_breakpoint :
    (_DELTA ^ 3) ^ ((1 : ℝ) / 3) ≠ _DELTA ^ 3 / (3 * _DELTA ^ 2) + _DELTA ∧
    labF (_DELTA ^ 3) = _DELTA ^ 3 / (3 * _DELTA ^ 2) + _DELTA := by
  have h0 : (0 : ℝ) ≤ _DELTA := by norm_num [_DELTA]
  have hpow : ((_DELTA ^ 3 : ℝ)) ^ ((1 : ℝ) / 3) = _DELTA := by
    have h3 : (_DELTA ^ 3 : ℝ) = _DELTA ^ ((3 : ℕ) : ℝ) := (Real.rpow_natCast _ 3).symm
    rw [h3, ← Real.rpow_mul h0]
    norm_num
  constructor
  · rw [hpow]
    norm_num [_DELTA]
  · simp only [labF, gt_iff_lt, lt_irrefl, if_false]

/-! ### Camera state and the acquisition data path (src/camera.py) -/

/-- `np.round(v, d)`: round to `d` decimals, ties to even (numpy's rounding
rule), modelled exactly on the reals. -/
noncomputable def roundHalfEven (q : ℝ) : ℤ :=
  if Int.fract q = 1 / 2 then (if Even ⌊q⌋ then ⌊q⌋ else ⌊q⌋ + 1) else round q

/-- `np.round(v, d)` on the reals. -/
noncomputable def roundTo (d : ℕ) (v : ℝ) : ℝ :=
  (roundHalfEven (v * 10 ^ d) : ℝ) / 10 ^ d

/-- A frame reduced to its pixels: the flattened channel-interleaved image of
`grab_result.GetArray().flatten()`, grouped back into (r, g, b) pixel
triples. -/
abbrev Frame := List (ℝ × ℝ × ℝ)

/-- `np.average` over each of the three interleaved channel slices
`img[0::3]`, `img[1::3]`, `img[2::3]` (camera.py line 631). -/
noncomputable def channelAvg (f : Frame) : Vec3 :=
  ⟨(f.map (fun p => p.1)).sum / (f.length : ℝ),
   (f.map (fun p => p.2.1)).sum / (f.length : ℝ),
   (f.map (fun p => p.2.2)).sum / (f.length : ℝ)⟩

/-- The nine per-sample values `R, G, B, X, Y, Z, L*, a*, b*`, standing for
the 9-element numpy array `np.concatenate([rgb, xyz, lab])`. -/
structure ColorValues where
  r : ℝ
  g : ℝ
  b : ℝ
  x : ℝ
  y : ℝ
  z : ℝ
  l_star : ℝ
  a_star : ℝ
  b_star : ℝ

/-- The mutable state of a `Camera` object that the data path touches:
the configured white point, the latest-value attributes `self.r` ... `self.b_star`,
the database flag and path, and (as a ghost view of the CSV file of the
current session) the list of appended rows, each row being the nine rounded
values actually formatted into it. -/
structure CameraState where
  whitepoint : Vec3
  r : ℝ
  g : ℝ
  b : ℝ
  x : ℝ
  y : ℝ
  z : ℝ
  l_star : ℝ
  a_star : ℝ
  b_star : ℝ
  write_to_database : Bool
  database : String
  log : List ColorValues

/-- The state set up by `Camera.__init__` (camera.py lines 35-70): white point
defaulted to D65 by `set_whitepoint()`, all latest-value attributes zero,
database writing off, empty path. -/
noncomputable def initCameraState : CameraState :=
  { whitepoint := D65, r := 0, g := 0, b := 0, x := 0, y := 0, z := 0,
    l_star := 0, a_star := 0, b_star := 0,
    write_to_database := false, database := "", log := [] }

/-- `Camera.set_whitepoint` (camera.py lines 745-762): stores the three
components, with no validation of any kind. -/
noncomputable def set_whitepoint (st : CameraState) (x y z : ℝ) : CameraState :=
  { st with whitepoint := ⟨x, y, z⟩ }

/-- Outcome of the CSV append attempted inside `__substract_data`: the file
write either succeeds or raises an I/O error. -/
inductive AppendOutcome
  | ok
  | ioError
deriving DecidableEq

/-- The latest-value attribute updates of `Camera.__substract_data`
(camera.py lines 630-657): channel averages, the two conversions, and the
rounded presentation values stored into `self.r` ... `self.b_star`. -/
noncomputable def updateRegisters (st : CameraState) (f : Frame) : CameraState :=
  let rgb := channelAvg f
  let xyz := rgb2xyz rgb
  let lab := xyz2lab st.whitepoint xyz
  { st with
    r := roundTo 3 rgb.x, g := roundTo 3 rgb.y, b := roundTo 3 rgb.z,
    x := roundTo 6 xyz.x, y := roundTo 6 xyz.y, z := roundTo 6 xyz.z,
    l_star := roundTo 6 lab.x, a_star := roundTo 6 lab.y, b_star := roundTo 6 lab.z }

/-- The nine latest-value attributes of a camera state, in the order they are
published and logged. -/
noncomputable def registerVals (st : CameraState) : ColorValues :=
  ⟨st.r, st.g, st.b, st.x, st.y, st.z, st.l_star, st.a_star, st.b_star⟩

/-- The unrounded nine values `np.concatenate([rgb, xyz, lab])` returned by
`__substract_data` (camera.py line 668). -/
noncomputable def pipelineVals (wp : Vec3) (f : Frame) : ColorValues :=
  let rgb := channelAvg f
  let xyz := rgb2xyz rgb
  let lab := xyz2lab wp xyz
  ⟨rgb.x, rgb.y, rgb.z, xyz.x, xyz.y, xyz.z, lab.x, lab.y, lab.z⟩

/-- `Camera.__substract_data` (camera.py lines 611-668).  The attribute writes
(lines 649-657) happen before the CSV write (lines 662-666); the CSV write is
attempted only when `write_to_database` is set, and it is NOT wrapped in any
try/except, so an I/O error there escapes the method: the result is the state
as mutated so far paired with either the returned nine values or the raised
error.  A successful write appends one row holding exactly the rounded
register values (the source formats `self`'s freshly rounded values with
matching precision). -/
noncomputable def substractData (st : CameraState) (f : Frame) (io : AppendOutcome) :
    CameraState × Except Unit ColorValues :=
  let st1 := updateRegisters st f
  if st.write_to_database then
    match io with
    | AppendOutcome.ok =>
        ({ st1 with log := st1.log ++ [registerVals st1] },
         Except.ok (pipelineVals st.whitepoint f))
    | AppendOutcome.ioError => (st1, Except.error ())
  else (st1, Except.ok (pipelineVals st.whitepoint f))

/-- One iteration of an acquisition loop: the retrieval either yields a frame
(`GrabSucceeded`) or times out / fails (`none`), and, in case a frame is
processed and the database flag is on, the scheduled outcome of the CSV
append. -/
structure Iter where
  frame : Option Frame
  io : AppendOutcome

/-- `Camera.start_grabbing` (camera.py lines 562-608) over a finite schedule
of iterations; the end of the list models the stop event being observed.
Returns the final camera state and whether the loop was terminated by an
uncaught exception escaping `__substract_data` (`true` = the thread died). -/
noncomputable def startGrabbing (st : CameraState) : List Iter → CameraState × Bool
  | [] => (st, false)
  | it :: rest =>
    match it.frame with
    | none => startGrabbing st rest
    | some f =>
      match (substractData st f it.io).2 with
      | Except.ok _ => startGrabbing (substractData st f it.io).1 rest
      | Except.error _ => ((substractData st f it.io).1, true)

/-- `np.mean(np.stack(arrays), axis=0)` (camera.py lines 530-531): the
componentwise arithmetic mean of a list of nine-value samples. -/
noncomputable def meanVals (l : List ColorValues) : ColorValues :=
  ⟨(l.map ColorValues.r).sum / (l.length : ℝ),
   (l.map ColorValues.g).sum / (l.length : ℝ),
   (l.map ColorValues.b).sum / (l.length : ℝ),
   (l.map ColorValues.x).sum / (l.length : ℝ),
   (l.map ColorValues.y).sum / (l.length : ℝ),
   (l.map ColorValues.z).sum / (l.length : ℝ),
   (l.map ColorValues.l_star).sum / (l.length : ℝ),
   (l.map ColorValues.a_star).sum / (l.length : ℝ),
   (l.map ColorValues.b_star).sum / (l.length : ℝ)⟩

/-- `np.zeros(9, dtype=float)` (camera.py lines 507 and 543). -/
noncomputable def zeroVals : ColorValues := ⟨0, 0, 0, 0, 0, 0, 0, 0, 0⟩

/-- The grabbing loop of `Camera.grab_average` (camera.py lines 516-528):
process retrieval outcomes, collecting the nine-value array of every
successful grab and counting them; when the counter reaches `n` the camera
stops grabbing and the loop ends.  `n` is a Python float, modelled as ℚ, and
is compared with the integer counter by equality, exactly as `counter == n`
in the source.  Running out of scheduled outcomes before the counter reaches
`n` models a loop that never returns (`none`); an I/O error escaping
`__substract_data` aborts the call (`none` as well, with the state as
mutated). -/
noncomputable def grabAverageLoop (n : ℚ) :
    CameraState → ℕ → List ColorValues → List Iter →
    CameraState × Option (List ColorValues)
  | st, _, _, [] => (st, none)
  | st, counter, acc, it :: rest =>
    match it.frame with
    | none => grabAverageLoop n st counter acc rest
    | some f =>
      match (substractData st f it.io).2 with
      | Except.error _ => ((substractData st f it.io).1, none)
      | Except.ok vals =>
        if ((counter + 1 : ℕ) : ℚ) = n then ((substractData st f it.io).1, some (acc ++ [vals]))
        else grabAverageLoop n (substractData st f it.io).1 (counter + 1) (acc ++ [vals]) rest

/-- `Camera.grab_average` (camera.py lines 494-543): for `n < 1` it returns
`np.zeros(9)` immediately, before `StartGrabbing`, leaving the state
untouched; otherwise it runs the counting loop and returns the componentwise
mean of the collected arrays. -/
noncomputable def grab_average (st : CameraState) (n : ℚ) (trace : List Iter) :
    CameraState × Option ColorValues :=
  if n < 1 then (st, some zeroVals)
  else
    match (grabAverageLoop n st 0 [] trace).2 with
    | some acc => ((grabAverageLoop n st 0 [] trace).1, some (meanVals acc))
    | none => ((grabAverageLoop n st 0 [] trace).1, none)

/-! ### Publisher loop (src/opcua_write_to_server.py) -/

/-- The node ids the publisher writes to (opcua_write_to_server.py lines
52-60). -/
def publishNodeIds : List String :=
  ["ns=4;i=116", "ns=4;i=94", "ns=4;i=95", "ns=4;i=96", "ns=4;i=97",
   "ns=4;i=98", "ns=4;i=99", "ns=4;i=100", "ns=4;i=101"]

/-- The nine values a publisher tick reads from the camera object
(opcua_write_to_server.py lines 64-72): the current latest-value attributes,
read unconditionally. -/
noncomputable def publishValues (st : CameraState) : List ℝ :=
  [st.r, st.g, st.b, st.x, st.y, st.z, st.l_star, st.a_star, st.b_star]

/-- One tick of the inner publisher loop (opcua_write_to_server.py lines
62-85): the nine writes performed, as (node id, value) pairs.  There is no
emptiness check of any kind: whatever the camera attributes currently hold is
written. -/
noncomputable def publishTick (st : CameraState) : List (String × ℝ) :=
  publishNodeIds.zip (publishValues st)

/-- How a publisher session ends (opcua_write_to_server.py lines 87-91): with
a `ua.UaError` (protocol-level fault during session setup or a write) or with
a `ConnectionError` (failed connect or failed liveness check). -/
inductive SessionFault
  | uaError
  | connError
deriving DecidableEq, BEq

/-- The number of backoff waits performed by the outer reconnect loop of
`main` (opcua_write_to_server.py lines 43-91) across a run whose successive
sessions end with the given faults: the `ua.UaError` handler only logs a
warning and retries immediately; only the `ConnectionError` handler sleeps
before retrying. -/
def backoffWaits : List SessionFault → ℕ
  | [] => 0
  | SessionFault.uaError :: rest => backoffWaits rest
  | SessionFault.connError :: rest => backoffWaits rest + 1

/-- Total seconds spent in backoff waits: each wait is `asyncio.sleep(2)`
(opcua_write_to_server.py line 91). -/
def backoffSeconds (faults : List SessionFault) : ℕ := 2 * backoffWaits faults

/-! ### Durable log: Camera.set_database_path and the CSV append (src/camera.py) -/

/-- One line of a CSV log file: either the fixed header row
`Time, R, G, B, X, Y, Z, L*, a*, b*` written by `set_database_path`, or a
data row (its timestamp kept as a ghost payload; the numeric cells are
covered by the camera-state model above). -/
inductive Row
  | header
  | data (time : String)
deriving DecidableEq

/-- The filesystem as seen by the logging code: the currently configured
database path `self.__database` and a map from paths to file contents
(`none` = the file does not exist). -/
structure DbState where
  current : String
  fs : String → Option (List Row)

/-- The logging state after `Camera.__init__`: `self.__database = ""` and no
file created by this system. -/
def initDb : DbState := { current := "", fs := fun _ => none }

/-- `Camera.set_database_path` (camera.py lines 873-894): store the path;
then, only if the file does not exist, create it and write the single header
row.  Opening the empty initial path `""` raises, and that exception is
caught and only logged (lines 893-894), leaving the filesystem unchanged. -/
def set_database_path (st : DbState) (file : String) : DbState :=
  if st.fs file = none then
    if file = "" then { st with current := file }
    else { current := file,
           fs := fun p => if p = file then some [Row.header] else st.fs p }
  else { st with current := file }

/-- The CSV append of `__substract_data` (camera.py lines 662-666) as it acts
on the filesystem: `open(path, 'a')` appends one data row, creating the file
if it does not exist; with the empty initial path the `open` raises and no
file is touched. -/
def appendRow (st : DbState) (t : String) : DbState :=
  if st.current = "" then st
  else { st with
         fs := fun p =>
           if p = st.current then some (((st.fs st.current).getD []) ++ [Row.data t])
           else st.fs p }

/-- An operation against the durable log: (re)configuring the destination or
appending one record. -/
inductive DbOp
  | configure (path : String)
  | append (time : String)

/-- One logging operation applied to the filesystem state. -/
def dbStep (st : DbState) : DbOp → DbState
  | DbOp.configure file => set_database_path st file
  | DbOp.append t => appendRow st t

/-- A sequence of logging operations applied in order. -/
def dbRun (st : DbState) : List DbOp → DbState
  | [] => st
  | op :: ops => dbRun (dbStep st op) ops

/-! ### The spec's reference formulas (spec.md section 4.1), used by claim C6 -/

/-- The spec's `δ = 16/116`. -/
noncomputable def spec_delta : ℝ := 16 / 116

/-- The spec's reference response: `f(t) = t^(1/3)` if `t > δ³`, else
`t/(3·δ²) + δ`. -/
noncomputable def spec_f (t : ℝ) : ℝ :=
  if t > spec_delta ^ 3 then t ^ ((1 : ℝ) / 3)
  else t / (3 * spec_delta ^ 2) + spec_delta

/-- The spec's reference RGB-to-XYZ rows:
`x = 0.4124·r/255 + 0.3576·g/255 + 0.1805·b/255` and the corresponding rows
for y and z. -/
noncomputable def spec_xyz (r g b : ℝ) : Vec3 :=
  ⟨0.4124 * r / 255 + 0.3576 * g / 255 + 0.1805 * b / 255,
   0.2126 * r / 255 + 0.7152 * g / 255 + 0.0722 * b / 255,
   0.0193 * r / 255 + 0.1192 * g / 255 + 0.9505 * b / 255⟩

/-- The spec's reference XYZ-to-LAB step: the response applied to each
white-point ratio, then `l* = 116·f(y) − 16`, `a* = 500·(f(x) − f(y))`,
`b* = 200·(f(y) − f(z))`. -/
noncomputable def spec_lab (wp v : Vec3) : Vec3 :=
  ⟨116 * spec_f (v.y / wp.y) - 16,
   500 * (spec_f (v.x / wp.x) - spec_f (v.y / wp.y)),
   200 * (spec_f (v.y / wp.y) - spec_f (v.z / wp.z))⟩

/-- The spec's reference composition of the two stages. -/
noncomputable def spec_rgb2lab (wp : Vec3) (r g b : ℝ) : Vec3 :=
  spec_lab wp (spec_xyz r g b)

/-! ### Helper lemmas about the data path -/

lemma updateRegisters_whitepoint (st : CameraState) (f : Frame) :
    (updateRegisters st f).whitepoint = st.whitepoint := rfl

lemma substractData_fst_whitepoint (st : CameraState) (f : Frame) (io : AppendOutcome) :
    ((substractData st f io).1).whitepoint = st.whitepoint := by
  cases io <;> by_cases h : st.write_to_database <;>
    simp [substractData, h, updateRegisters_whitepoint]

lemma substractData_ioError (st : CameraState) (f : Frame)
    (h : st.write_to_database = true) :
    substractData st f AppendOutcome.ioError = (updateRegisters st f, Except.error ()) := by
  simp [substractData, h]

lemma substractData_snd_ok (st : CameraState) (f : Frame) :
    (substractData st f AppendOutcome.ok).2 = Except.ok (pipelineVals st.whitepoint f) := by
  by_cases h : st.write_to_database <;> simp [substractData, h]

lemma substractData_fst_ioError (st : CameraState) (f : Frame) :
    (substractData st f AppendOutcome.ioError).1 = updateRegisters st f := by
  by_cases h : st.write_to_database <;> simp [substractData, h]

lemma substractData_snd_ioError (st : CameraState) (f : Frame)
    (h : st.write_to_database = true) :
    (substractData st f AppendOutcome.ioError).2 = Except.error () := by
  simp [substractData, h]

/-! ### Claim C5: white-point validation (refuted) -/

/-- Claim C5, counterexample.  `Camera.set_whitepoint` performs no validation:
called with the non-positive component `-1`, it returns normally and the
stored white point has a non-positive x component, contrary to the claim that
such a call fails and never stores a non-positive value. -/
theorem set_whitepoint_accepts_nonpositive :
    (set_whitepoint initCameraState (-1) 1 1).whitepoint = ⟨-1, 1, 1⟩ ∧
    ¬ (0 < (set_whitepoint initCameraState (-1) 1 1).whitepoint.x) := by
  refine ⟨rfl, ?_⟩
  show ¬ ((0 : ℝ) < -1)
  norm_num

/-- Claim C5, amended: `set_whitepoint` stores whatever components it is
given, with no validation — in particular a call with a non-positive
component succeeds and the non-positive value is stored, so division by zero
in the white-point ratio of `xyz2lab` is not precluded at configuration
time. -/
theorem set_whitepoint_stores_unvalidated (st : CameraState) (x y z : ℝ)
    (_h : x ≤ 0 ∨ y ≤ 0 ∨ z ≤ 0) :
    (set_whitepoint st x y z).whitepoint = ⟨x, y, z⟩ := rfl

theorem set_whitepoint_stores_unvalidated_witness :
    ((-2 : ℝ) ≤ 0 ∨ (1 : ℝ) ≤ 0 ∨ (1 : ℝ) ≤ 0) ∧
    (set_whitepoint initCameraState (-2) 1 1).whitepoint = ⟨-2, 1, 1⟩ :=
  ⟨Or.inl (by norm_num),
   set_whitepoint_stores_unvalidated initCameraState (-2) 1 1 (Or.inl (by norm_num))⟩

/-! ### Claim C3: publishing before the first sample (refuted) -/

/-- Claim C3, counterexample.  In the state left by `Camera.__init__` — the
state in which no sample has ever been produced — a publisher tick performs
all nine writes, pushing the placeholder value `0.0` to every node, contrary
to the claim that the tick is skipped and nothing is published. -/
theorem publishTick_before_first_sample_publishes :
    (publishTick initCameraState).length = 9 ∧
    ∀ w ∈ publishTick initCameraState, w.2 = 0 := by
  have h : publishTick initCameraState =
      [("ns=4;i=116", (0 : ℝ)), ("ns=4;i=94", 0), ("ns=4;i=95", 0),
       ("ns=4;i=96", 0), ("ns=4;i=97", 0), ("ns=4;i=98", 0), ("ns=4;i=99", 0),
       ("ns=4;i=100", 0), ("ns=4;i=101", 0)] := rfl
  rw [h]
  refine ⟨rfl, ?_⟩
  intro w hw
  simp only [List.mem_cons, List.not_mem_nil, or_false] at hw
  rcases hw with rfl | rfl | rfl | rfl | rfl | rfl | rfl | rfl | rfl <;> rfl

/-- Claim C3, amended: the publisher loop has no emptiness check at all — on
every tick it unconditionally writes the nine current latest-value attributes
of the camera object, and before the first sample these are the initial
zeros, which are published as placeholders. -/
theorem publishTick_unconditional :
    (∀ st : CameraState, (publishTick st).map Prod.snd =
      [st.r, st.g, st.b, st.x, st.y, st.z, st.l_star, st.a_star, st.b_star]) ∧
    publishValues initCameraState = List.replicate 9 0 :=
  ⟨fun _ => rfl, rfl⟩

/-! ### Claim C4: backoff policy (refuted) -/

/-- Claim C4, counterexample.  A session ending with a `ua.UaError` — a
publisher session fault — is followed by zero backoff waits, not by the one
wait the claim requires after one failure: the `UaError` handler retries
immediately. -/
theorem backoff_missing_for_uaError :
    backoffWaits [SessionFault.uaError] = 0 ∧
    backoffWaits [SessionFault.uaError] ≠ 1 := ⟨rfl, by decide⟩

/-- Claim C4, amended: only faults surfacing as `ConnectionError` are followed
by the fixed 2-second backoff wait; faults surfacing as `ua.UaError` are
retried immediately with no wait.  Across any run, the number of backoff
waits equals the number of `ConnectionError` faults, each wait lasting 2
seconds. -/
theorem backoffWaits_counts_connection_errors (faults : List SessionFault) :
    backoffWaits faults = faults.count SessionFault.connError ∧
    backoffSeconds faults = 2 * faults.count SessionFault.connError := by
  have h : backoffWaits faults = faults.count SessionFault.connError := by
    induction faults with
    | nil => rfl
    | cons f rest ih => cases f <;> simp [backoffWaits, List.count_cons, ih] <;> decide
  exact ⟨h, by rw [backoffSeconds, h]⟩

/-! ### Claim C10: grab_average with n < 1 -/

/-- Claim C10, confirmed.  For every `n < 1`, `grab_average` returns the
all-zeros nine-vector immediately: the early return fires before
`StartGrabbing`, so the state — latest-value register and log included — is
returned untouched, and the scheduled trace of grab outcomes is never
consumed. -/
theorem grab_average_lt_one_returns_zeros (n : ℚ) (st : CameraState)
    (trace : List Iter) (h : n < 1) :
    grab_average st n trace = (st, some zeroVals) := by
  simp [grab_average, h]

theorem grab_average_lt_one_returns_zeros_witness :
    (0 : ℚ) < 1 ∧ grab_average initCameraState 0 [] = (initCameraState, some zeroVals) :=
  ⟨by norm_num, grab_average_lt_one_returns_zeros 0 initCameraState [] (by norm_num)⟩

/-! ### Claim C2: logging failure during acquisition (refuted) -/

/-- A camera state with database writing enabled, as configured by
`opcua_write_to_server.py` lines 35-36. -/
noncomputable def dbOnState : CameraState :=
  { initCameraState with write_to_database := true, database := "log.csv" }

/-- Claim C2, counterexample.  With database writing on, a trace whose first
iteration grabs a frame but whose CSV append raises an I/O error kills the
acquisition loop (`true` = uncaught exception escaped `start_grabbing`), even
though a further successful iteration was scheduled: acquisition does not
continue and no next sample is produced, contrary to the claim. -/
theorem append_error_kills_acquisition :
    (startGrabbing dbOnState
      [{ frame := some [((1 : ℝ), 1, 1)], io := AppendOutcome.ioError },
       { frame := some [((2 : ℝ), 2, 2)], io := AppendOutcome.ok }]).2 = true := by
  have hflag : dbOnState.write_to_database = true := rfl
  simp [startGrabbing, substractData_snd_ioError dbOnState _ hflag]

/-- Claim C2, amended: the CSV write in `__substract_data` is not wrapped in
any exception handler, so an I/O error raised while appending a record
propagates out of the acquisition loop and halts it at that iteration — the
latest-value register keeps the values of the failing iteration's frame
(attribute writes precede the CSV write), the rest of the schedule is never
processed, and no warning-and-continue behavior exists. -/
theorem startGrabbing_halts_on_append_error (st : CameraState) (f : Frame)
    (rest : List Iter) (h : st.write_to_database = true) :
    startGrabbing st ({ frame := some f, io := AppendOutcome.ioError } :: rest) =
      (updateRegisters st f, true) := by
  simp [startGrabbing, substractData_snd_ioError st f h, substractData_fst_ioError]

theorem startGrabbing_halts_on_append_error_witness :
    dbOnState.write_to_database = true ∧
    startGrabbing dbOnState
        ({ frame := some [((3 : ℝ), 3, 3)], io := AppendOutcome.ioError } :: []) =
      (updateRegisters dbOnState [((3 : ℝ), 3, 3)], true) :=
  ⟨rfl, startGrabbing_halts_on_append_error dbOnState [((3 : ℝ), 3, 3)] [] rfl⟩

/-! ### Claim C9: the register holds the rounded presentation values -/

/-- The rounded presentation values of a frame: channel averages rounded to 3
decimals, the derived XYZ and LAB values rounded to 6 decimals — what
`__substract_data` stores into `self.r` ... `self.b_star`. -/
noncomputable def roundedVals (wp : Vec3) (f : Frame) : ColorValues :=
  let rgb := channelAvg f
  let xyz := rgb2xyz rgb
  let lab := xyz2lab wp xyz
  ⟨roundTo 3 rgb.x, roundTo 3 rgb.y, roundTo 3 rgb.z,
   roundTo 6 xyz.x, roundTo 6 xyz.y, roundTo 6 xyz.z,
   roundTo 6 lab.x, roundTo 6 lab.y, roundTo 6 lab.z⟩

lemma substractData_fst_registerVals (st : CameraState) (f : Frame) (io : AppendOutcome) :
    registerVals (substractData st f io).1 = roundedVals st.whitepoint f := by
  cases io <;> by_cases h : st.write_to_database <;>
    simp [substractData, h, registerVals, updateRegisters, roundedVals]

lemma startGrabbing_no_frames (st : CameraState) (trace : List Iter)
    (h : trace.filterMap Iter.frame = []) :
    startGrabbing st trace = (st, false) := by
  induction trace with
  | nil => rfl
  | cons it rest ih =>
    cases hf : it.frame with
    | none =>
      simp only [startGrabbing, hf]
      exact ih (by simpa [List.filterMap_cons, hf] using h)
    | some f =>
      exfalso
      simp [List.filterMap_cons, hf] at h

/-- Claim C9, confirmed.  Every call of `__substract_data` leaves the
latest-value attributes equal to the rounded presentation values of the
processed frame (r, g, b to 3 decimals; x, y, z, l*, a*, b* to 6 decimals of
the computed conversion results), whatever the append outcome — and across a
whole fault-free acquisition run, the register ends up holding the rounded
values of the last successfully grabbed frame, which is what every publisher
tick reads. -/
theorem register_always_rounded :
    (∀ (st : CameraState) (f : Frame) (io : AppendOutcome),
       registerVals (substractData st f io).1 = roundedVals st.whitepoint f) ∧
    (∀ (st : CameraState) (trace : List Iter) (f : Frame),
       (∀ it ∈ trace, it.io = AppendOutcome.ok) →
       (trace.filterMap Iter.frame).getLast? = some f →
       registerVals (startGrabbing st trace).1 = roundedVals st.whitepoint f) := by
  refine ⟨substractData_fst_registerVals, ?_⟩
  intro st trace
  induction trace generalizing st with
  | nil => intro f _ hlast; simp at hlast
  | cons it rest ih =>
    intro f hio hlast
    cases hf : it.frame with
    | none =>
      simp only [startGrabbing, hf]
      refine ih st f (fun i hi => hio i (List.mem_cons_of_mem _ hi)) ?_
      simpa [List.filterMap_cons, hf] using hlast
    | some f0 =>
      have hio0 : it.io = AppendOutcome.ok := hio it (List.mem_cons_self _ _)
      rw [List.filterMap_cons, hf] at hlast
      simp only [startGrabbing, hf, hio0, substractData_snd_ok]
      rcases hrest : rest.filterMap Iter.frame with _ | ⟨f1, l⟩
      · rw [hrest] at hlast
        simp only [List.getLast?_singleton, Option.some.injEq] at hlast
        subst hlast
        rw [startGrabbing_no_frames _ rest hrest]
        exact substractData_fst_registerVals st f0 AppendOutcome.ok
      · have hlast2 : (rest.filterMap Iter.frame).getLast? = some f := by
          rw [hrest] at hlast ⊢
          simpa [List.getLast?_cons_cons] using hlast
        have hwp := substractData_fst_whitepoint st f0 AppendOutcome.ok
        rw [ih ((substractData st f0 AppendOutcome.ok).1) f
              (fun i hi => hio i (List.mem_cons_of_mem _ hi)) hlast2, hwp]

theorem register_always_rounded_witness :
    (∀ it ∈ ([{ frame := some [((5 : ℝ), 5, 5)], io := AppendOutcome.ok }] : List Iter),
       it.io = AppendOutcome.ok) ∧
    (([{ frame := some [((5 : ℝ), 5, 5)], io := AppendOutcome.ok }] : List Iter).filterMap
        Iter.frame).getLast? = some [((5 : ℝ), 5, 5)] ∧
    registerVals (startGrabbing initCameraState
        [{ frame := some [((5 : ℝ), 5, 5)], io := AppendOutcome.ok }]).1 =
      roundedVals initCameraState.whitepoint [((5 : ℝ), 5, 5)] :=
  ⟨by simp, rfl,
   register_always_rounded.2 initCameraState
     [{ frame := some [((5 : ℝ), 5, 5)], io := AppendOutcome.ok }]
     [((5 : ℝ), 5, 5)] (by simp) rfl⟩

/-! ### Claim C6: the conversion chain matches the reference formulas -/

lemma spec_f_eq_labF : spec_f = labF := rfl

lemma rgb2xyz_eq_spec_xyz (r g b : ℝ) : rgb2xyz ⟨r, g, b⟩ = spec_xyz r g b := by
  simp only [rgb2xyz, spec_xyz, _B11, _B12, _B13, _B21, _B22, _B23, _B31, _B32, _B33,
    Vec3.mk.injEq]
  refine ⟨by ring, by ring, by ring⟩

lemma xyz2lab_eq_spec_lab (wp v : Vec3) : xyz2lab wp v = spec_lab wp v := by
  simp only [xyz2lab, spec_lab, spec_f_eq_labF, Vec3.mk.injEq]
  refine ⟨by ring, by ring, by ring⟩

/-- Claim C6, confirmed.  On all of `[0,255]³`, `rgb2xyz` followed by
`xyz2lab` with the D65 white point (0.94811, 1.0, 1.07304) — a pure function
of the channels and the white point, deterministic by construction — equals
the spec's reference formulas exactly: the three matrix rows with channels
normalized by 255, then the piecewise response with breakpoint δ³ and
`l* = 116·f(y) − 16`, `a* = 500·(f(x) − f(y))`, `b* = 200·(f(y) − f(z))`. -/
theorem conversion_matches_reference (r g b : ℝ)
    (_h1 : 0 ≤ r) (_h2 : r ≤ 255) (_h3 : 0 ≤ g) (_h4 : g ≤ 255)
    (_h5 : 0 ≤ b) (_h6 : b ≤ 255) :
    rgb2xyz ⟨r, g, b⟩ = spec_xyz r g b ∧
    rgb2lab D65 ⟨r, g, b⟩ = spec_rgb2lab D65 r g b := by
  refine ⟨rgb2xyz_eq_spec_xyz r g b, ?_⟩
  rw [rgb2lab, spec_rgb2lab, ← rgb2xyz_eq_spec_xyz, xyz2lab_eq_spec_lab]

theorem conversion_matches_reference_witness :
    ((0 : ℝ) ≤ 255 ∧ (255 : ℝ) ≤ 255 ∧ (0 : ℝ) ≤ 128 ∧ (128 : ℝ) ≤ 255 ∧
     (0 : ℝ) ≤ 0 ∧ (0 : ℝ) ≤ 255) ∧
    (rgb2xyz ⟨255, 128, 0⟩ = spec_xyz 255 128 0 ∧
     rgb2lab D65 ⟨255, 128, 0⟩ = spec_rgb2lab D65 255 128 0) :=
  ⟨⟨by norm_num, by norm_num, by norm_num, by norm_num, le_refl 0, by norm_num⟩,
   conversion_matches_reference 255 128 0 (by norm_num) (by norm_num) (by norm_num)
     (by norm_num) (le_refl 0) (by norm_num)⟩

/-! ### Claim C7: grab_average returns the mean of exactly n samples -/

lemma grabAverageLoop_collects (n : ℕ) :
    ∀ (trace : List Iter) (st : CameraState) (counter : ℕ) (acc : List ColorValues),
      counter < n → n - counter ≤ (trace.filterMap Iter.frame).length →
      (∀ it ∈ trace, it.io = AppendOutcome.ok) →
      (grabAverageLoop (n : ℚ) st counter acc trace).2 =
        some (acc ++ ((trace.filterMap Iter.frame).take (n - counter)).map
          (pipelineVals st.whitepoint)) := by
  intro trace
  induction trace with
  | nil =>
    intro st counter acc hlt hle _
    exfalso
    simp at hle
    omega
  | cons it rest ih =>
    intro st counter acc hlt hle hio
    cases hf : it.frame with
    | none =>
      rw [List.filterMap_cons, hf] at hle ⊢
      simp only [grabAverageLoop, hf]
      exact ih st counter acc hlt hle (fun i hi => hio i (List.mem_cons_of_mem _ hi))
    | some f0 =>
      have hio0 : it.io = AppendOutcome.ok := hio it (List.mem_cons_self _ _)
      rw [List.filterMap_cons, hf] at hle ⊢
      simp only [grabAverageLoop, hf, hio0, substractData_snd_ok]
      by_cases hc : ((counter + 1 : ℕ) : ℚ) = (n : ℚ)
      · have hcn : counter + 1 = n := by exact_mod_cast hc
        rw [if_pos hc]
        have h1 : n - counter = 1 := by omega
        simp [h1]
      · rw [if_neg hc]
        have hne : counter + 1 ≠ n := fun hh => hc (by exact_mod_cast hh)
        have hlt1 : counter + 1 < n := by omega
        have hle1 : n - (counter + 1) ≤ (rest.filterMap Iter.frame).length := by
          simp at hle
          omega
        rw [ih ((substractData st f0 AppendOutcome.ok).1) (counter + 1) (acc ++ [pipelineVals st.whitepoint f0])
              hlt1 hle1 (fun i hi => hio i (List.mem_cons_of_mem _ hi)),
            substractData_fst_whitepoint]
        obtain ⟨k, hk⟩ : ∃ k, n - counter = k + 1 := ⟨n - counter - 1, by omega⟩
        have hk2 : n - (counter + 1) = k := by omega
        simp [hk, hk2, List.take_succ_cons]

/-- Claim C7, confirmed.  For every integer `n ≥ 1` and every grab schedule
offering at least `n` successful retrievals (with no logging fault),
`grab_average` returns, it consumes exactly the first `n` successful frame
grabs — retrievals that time out or fail are skipped by the
`GrabSucceeded` check and do not count toward `n` — and the returned
nine-vector is the componentwise arithmetic mean of the nine per-sample
values of those `n` samples. -/
theorem grab_average_returns_mean (n : ℕ) (st : CameraState) (trace : List Iter)
    (h1 : 1 ≤ n) (h2 : n ≤ (trace.filterMap Iter.frame).length)
    (h3 : ∀ it ∈ trace, it.io = AppendOutcome.ok) :
    (grab_average st (n : ℚ) trace).2 =
      some (meanVals (((trace.filterMap Iter.frame).take n).map
        (pipelineVals st.whitepoint))) := by
  have hnot : ¬ ((n : ℚ) < 1) := by
    rw [not_lt]
    exact_mod_cast h1
  have h := grabAverageLoop_collects n trace st 0 [] (by omega) (by simpa using h2) h3
  rw [grab_average, if_neg hnot]
  simp only [Nat.sub_zero, List.nil_append] at h
  simp [h]

theorem grab_average_returns_mean_witness :
    1 ≤ 1 ∧
    1 ≤ (([{ frame := none, io := AppendOutcome.ok },
           { frame := some [((3 : ℝ), 6, 9)], io := AppendOutcome.ok }] : List Iter).filterMap
            Iter.frame).length ∧
    (∀ it ∈ ([{ frame := none, io := AppendOutcome.ok },
              { frame := some [((3 : ℝ), 6, 9)], io := AppendOutcome.ok }] : List Iter),
       it.io = AppendOutcome.ok) ∧
    (grab_average initCameraState ((1 : ℕ) : ℚ)
        [{ frame := none, io := AppendOutcome.ok },
         { frame := some [((3 : ℝ), 6, 9)], io := AppendOutcome.ok }]).2 =
      some (meanVals (((([{ frame := none, io := AppendOutcome.ok },
                          { frame := some [((3 : ℝ), 6, 9)], io := AppendOutcome.ok }] : List Iter).filterMap
                           Iter.frame).take 1).map (pipelineVals initCameraState.whitepoint))) :=
  ⟨le_refl 1, by simp, by simp,
   grab_average_returns_mean 1 initCameraState
     [{ frame := none, io := AppendOutcome.ok },
      { frame := some [((3 : ℝ), 6, 9)], io := AppendOutcome.ok }]
     (le_refl 1) (by simp) (by simp)⟩

/-! ### Claim C8: the header row appears exactly once, as the first line -/

/-- Well-formed file contents: the header row is the first line and occurs
nowhere else. -/
def WFrows (rows : List Row) : Prop :=
  rows.head? = some Row.header ∧ ∀ r ∈ rows.tail, r ≠ Row.header

/-- Invariant of the logging state: every file this system has created is
well formed, and whenever a non-empty path is configured its file exists
(because configuring it created it with the header if needed). -/
def DbInv (st : DbState) : Prop :=
  (∀ p rows, st.fs p = some rows → WFrows rows) ∧
  (st.current ≠ "" → st.fs st.current ≠ none)

lemma dbStep_inv (st : DbState) (op : DbOp) (h : DbInv st) : DbInv (dbStep st op) := by
  obtain ⟨hwf, hcur⟩ := h
  cases op with
  | configure file =>
    show DbInv (set_database_path st file)
    rw [set_database_path]
    by_cases hex : st.fs file = none
    · rw [if_pos hex]
      by_cases hemp : file = ""
      · rw [if_pos hemp]
        exact ⟨hwf, fun hc => absurd hemp hc⟩
      · rw [if_neg hemp]
        constructor
        · intro p rows hp
          by_cases hpf : p = file
          · simp only [hpf, if_pos rfl, ite_true, Option.some.injEq] at hp
            subst hp
            exact ⟨rfl, by simp⟩
          · simp only [if_neg hpf] at hp
            exact hwf p rows hp
        · intro _
          simp
    · rw [if_neg hex]
      exact ⟨hwf, fun _ => hex⟩
  | append t =>
    show DbInv (appendRow st t)
    rw [appendRow]
    by_cases hc : st.current = ""
    · rw [if_pos hc]
      exact ⟨hwf, hcur⟩
    · rw [if_neg hc]
      obtain ⟨rows0, hrows0⟩ : ∃ rows0, st.fs st.current = some rows0 := by
        rcases hfs : st.fs st.current with _ | rows0
        · exact absurd hfs (hcur hc)
        · exact ⟨rows0, rfl⟩
      obtain ⟨hhead, htail⟩ := hwf st.current rows0 hrows0
      obtain ⟨tl, rfl⟩ : ∃ tl, rows0 = Row.header :: tl := by
        rcases rows0 with _ | ⟨hd, tl⟩
        · simp at hhead
        · simp only [List.head?_cons, Option.some.injEq] at hhead
          exact ⟨tl, by rw [hhead]⟩
      constructor
      · intro p rows hp
        by_cases hpf : p = st.current
        · simp only [hpf, if_pos rfl, ite_true, hrows0, Option.getD_some, Option.some.injEq] at hp
          subst hp
          refine ⟨rfl, ?_⟩
          intro r hr
          simp only [List.tail_cons] at htail ⊢
          rcases List.mem_append.mp hr with hr1 | hr2
          · exact htail r hr1
          · simp only [List.mem_singleton] at hr2
            subst hr2
            simp
        · simp only [if_neg hpf] at hp
          exact hwf p rows hp
      · intro _
        simp [hrows0]
  
lemma dbRun_inv (ops : List DbOp) : ∀ st : DbState, DbInv st → DbInv (dbRun st ops) := by
  induction ops with
  | nil => intro st h; exact h
  | cons op rest ih => intro st h; exact ih (dbStep st op) (dbStep_inv st op h)

lemma initDb_inv : DbInv initDb :=
  ⟨fun p rows hp => by simp [initDb] at hp, fun hc => absurd rfl hc⟩

/-- Claim C8, confirmed.  Starting from a fresh system (no file created yet),
after any sequence of configure/append operations every log file this system
has created contains the header row exactly once, as its first line:
configuring a path whose file does not exist writes the header once before
any data row; configuring an already-existing file leaves its contents
untouched (never writes the header again); and every appended record lands
after the header. -/
theorem log_header_exactly_once :
    (∀ (ops : List DbOp) (p : String) (rows : List Row),
       (dbRun initDb ops).fs p = some rows →
       rows.head? = some Row.header ∧ ∀ r ∈ rows.tail, r ≠ Row.header) ∧
    (∀ (st : DbState) (file : String) (rows : List Row),
       st.fs file = some rows → (set_database_path st file).fs file = some rows) := by
  constructor
  · intro ops p rows hp
    exact (dbRun_inv ops initDb initDb_inv).1 p rows hp
  · intro st file rows hfs
    rw [set_database_path, if_neg (by simp [hfs])]
    exact hfs

theorem log_header_exactly_once_witness :
    (dbRun initDb [DbOp.configure "log.csv", DbOp.append "12:00:00.000"]).fs "log.csv" =
      some [Row.header, Row.data "12:00:00.000"] ∧
    ([Row.header, Row.data "12:00:00.000"].head? = some Row.header ∧
     ∀ r ∈ [Row.header, Row.data "12:00:00.000"].tail, r ≠ Row.header) :=
  ⟨by decide,
   log_header_exactly_once.1 [DbOp.configure "log.csv", DbOp.append "12:00:00.000"]
     "log.csv" [Row.header, Row.data "12:00:00.000"] (by decide)⟩
